import Mathlib

/-!
Verification of the ScreenScribe session state machine.

The application is a single React component (`App`) driving a screen-capture
and transcribe session, plus a thin wrapper around the transcription service
(`transcribeImage`).  This file shallowly embeds the component state and every
event handler as pure functions on an explicit `Session` record, and the UI
event loop as a guarded step function: an event is enabled exactly when the
corresponding handler can actually fire in the rendered UI (button rendered
and not disabled, media callback installed, promise in flight).

Conventions of the embedding:
* React `useState` fields become fields of `Session`; a handler that calls
  several setters becomes one record update (the setters of one synchronous
  handler are batched into a single committed state).
* Pixel coordinates and dimensions are JavaScript numbers; they are embedded
  as rationals (`ℚ`), which model the float arithmetic of the source exactly
  on every input the claims mention.
* The stream handle is modelled by `streamActive` (true between a successful
  `getDisplayMedia` and the next `stopStream`, i.e. while the tracks are not
  stopped).
* The `onended` callback installed on the video track at acquisition time is
  a JavaScript closure: it calls the `handleEndSession` value captured when
  `handleStartCapture` was created, whose `transcription`/`lastScreenshot`
  are the values of the render in which that `useCallback` closure was built
  (the callback is never re-installed when those dependencies change).  The
  pair captured by that closure is stored in `endedCapture`.
* The in-flight transcription promise of `handleTakeSnapshot` is modelled by
  the counter `pending`: the code `await`s and then runs its continuation
  whatever the current state is, so resolution events are enabled whenever a
  request is pending, not only in the `Transcribing` phase.
-/

namespace ScreenScribe

/-- The seven phases of `Status` (types.ts). -/
inductive Status
  | Idle
  | Capturing
  | Streaming
  | Transcribing
  | Reviewing
  | Success
  | Error
deriving DecidableEq, Repr

/-- The crop selection rectangle `{ x, y, width, height }`, in displayed
preview coordinates. -/
structure Rect where
  x : ℚ
  y : ℚ
  width : ℚ
  height : ℚ
deriving DecidableEq, Repr

/-- The component state of `App`: one field per `useState` hook, plus the
`streamRef` resource (`streamActive`), the data captured by the installed
`onended` closure (`endedCapture`) and the number of in-flight transcription
promises (`pending`). `selectionStart` is the `selectionStartPoint` ref. -/
structure Session where
  status : Status
  transcription : String
  currentSnippet : String
  lastScreenshot : Option String
  error : Option String
  cropArea : Option Rect
  isCopied : Bool
  isEditing : Bool
  editedTranscription : String
  isSelecting : Bool
  selectionStart : Option (ℚ × ℚ)
  streamActive : Bool
  endedCapture : Option (String × Option String)
  pending : Nat
deriving DecidableEq, Repr

/-- The pieces of the environment read by `handleTakeSnapshot`: whether the
video element exists with `readyState ≥ 2`, its native and displayed
dimensions, whether `canvas.getContext` returns a context, and the data URL
the canvas produces. -/
structure VideoEnv where
  ready : Bool
  videoWidth : ℚ
  videoHeight : ℚ
  clientWidth : ℚ
  clientHeight : ℚ
  ctxOk : Bool
  shot : String
deriving DecidableEq, Repr

/-- JavaScript truthiness of a `string | null | undefined` value: `null`,
`undefined` and `""` are falsy. -/
def strTruthy : Option String → Bool
  | none => false
  | some t => t ≠ ""

/-- Error message set when `getDisplayMedia` fails other than by user
cancellation. -/
def captureFailMsg : String :=
  "Failed to start screen capture. Please check permissions and try again."

/-- Error message set by the video element `onerror` callback. -/
def videoErrorMsg : String := "There was an error with the video stream."

/-- Error message set when `handleTakeSnapshot` runs with no ready video. -/
def notReadyMsg : String := "Video stream is not ready."

/-- Error message set when `handleTakeSnapshot` runs with no crop area. -/
def noCropMsg : String := "Please select an area on the preview to capture."

/-- Error message set when the canvas 2d context is unavailable. -/
def noCtxMsg : String := "Could not get canvas context to take a snapshot."

/-- Error message set when the transcription promise rejects. -/
def transcribeFailMsg : String :=
  "Transcription failed. Please try another snapshot."

/-- Placeholder returned by `transcribeImage` when the model text is falsy. -/
def noTextPlaceholder : String := "No text found in the image."

/-- Message of the single generic error thrown by `transcribeImage`. -/
def serviceErrorMsg : String := "Failed to get transcription from AI service."

/-- JavaScript whitespace test for the characters `String.prototype.trim`
strips (the ASCII white-space class; the source never produces the exotic
Unicode cases). -/
def jsWhitespace (c : Char) : Bool :=
  c = ' ' || c = '\t' || c = '\n' || c = '\r' || c = '\x0b' || c = '\x0c'

/-- JavaScript `String.prototype.trim`: strip leading and trailing
whitespace. -/
def jsTrim (s : String) : String :=
  String.mk (((s.data.dropWhile jsWhitespace).reverse.dropWhile
    jsWhitespace).reverse)

/-- Success path of `transcribeImage` (geminiService), as a function of the
model response text `response.text : string | undefined`: a falsy text gives
the placeholder, otherwise the text is trimmed and returned. -/
def transcribeImage (text : Option String) : String :=
  match text with
  | none => noTextPlaceholder
  | some t => if t = "" then noTextPlaceholder else jsTrim t

/-- The whole `transcribeImage` boundary: any failure of the underlying call
is caught and rethrown as the single generic service error; a fulfilled call
resolves to `transcribeImage` of the response text. -/
def transcribeImageCall (outcome : Except Unit (Option String)) :
    Except String String :=
  match outcome with
  | .error _ => .error serviceErrorMsg
  | .ok text => .ok (transcribeImage text)

/-- `stopStream`: stop every track of the current stream and detach the video
element together with its imperative `oncanplay`/`onerror` listeners.
Stopped tracks fire no further `onended`, so the captured callback data is
dropped as well. -/
def stopStream (s : Session) : Session :=
  { s with streamActive := false, endedCapture := none }

/-- `handleStartNewSession`: stop the stream and reset every piece of session
state to its initial value (the `editedTranscription` draft, the selection
start ref and any still-pending promise are not touched by the source). -/
def handleStartNewSession (s : Session) : Session :=
  { stopStream s with
    lastScreenshot := none
    transcription := ""
    currentSnippet := ""
    status := .Idle
    error := none
    isCopied := false
    cropArea := none
    isSelecting := false
    isEditing := false }

/-- Body of `handleEndSession` as a function of the `transcription` and
`lastScreenshot` values its closure holds: stop the stream, then `Success`
when the captured transcription or screenshot is truthy, else a full reset. -/
def endSessionCore (tr : String) (shot : Option String) (s : Session) :
    Session :=
  let s1 := stopStream s
  if tr ≠ "" ∨ strTruthy shot then { s1 with status := .Success }
  else handleStartNewSession s1

/-- `handleEndSession` invoked from the End Session button: the button always
carries the closure of the latest render, so it reads the current
`transcription` and `lastScreenshot`. -/
def handleEndSession (s : Session) : Session :=
  endSessionCore s.transcription s.lastScreenshot s

/-- Synchronous prefix of `handleStartCapture`: enter `Capturing` and clear
error, transcription, screenshot, crop area and editing flag (the current
snippet is not cleared by the source). -/
def handleStartCapture (s : Session) : Session :=
  { s with
    status := .Capturing
    error := none
    transcription := ""
    lastScreenshot := none
    cropArea := none
    isEditing := false }

/-- Resumption of `handleStartCapture` when `getDisplayMedia` fulfills: store
the stream, install the track `onended` callback (capturing the
`transcription`/`lastScreenshot` values its closure holds, see the header
comment) and enter `Streaming`. -/
def handleAcquireOk (s : Session) : Session :=
  { s with
    streamActive := true
    endedCapture := some (s.transcription, s.lastScreenshot)
    status := .Streaming }

/-- Resumption of `handleStartCapture` when `getDisplayMedia` rejects with an
error named `name`: a user denial or abort silently resets to `Idle`; any
other failure sets the error message and enters `Error`. -/
def handleAcquireFail (name : String) (s : Session) : Session :=
  if name = "NotAllowedError" ∨ name = "AbortError" then
    handleStartNewSession s
  else { s with error := some captureFailMsg, status := .Error }

/-- The video element `onerror` callback (and the `play()` failure path,
which differs only in message): set an error and enter `Error`.  The source
does not stop the stream here. -/
def handleVideoError (s : Session) : Session :=
  { s with error := some videoErrorMsg, status := .Error }

/-- Scaling of the preview-coordinate crop rectangle to source pixels, as in
`handleTakeSnapshot`: `scaleX = videoWidth / clientWidth`,
`scaleY = videoHeight / clientHeight`, applied to x, y, width and height. -/
def sourceRegion (env : VideoEnv) (r : Rect) : Rect :=
  let scaleX := env.videoWidth / env.clientWidth
  let scaleY := env.videoHeight / env.clientHeight
  ⟨r.x * scaleX, r.y * scaleY, r.width * scaleX, r.height * scaleY⟩

/-- `handleTakeSnapshot` up to (and including) starting the transcription
call.  With no ready video: fatal error.  With no crop area: local error
message only, no status change.  Otherwise the source first sets
`Transcribing`/clears the error, computes the scaled region, and rejects it
back to `Streaming` when the scaled width or height is below 1 pixel; with a
usable region and a canvas context it stores the screenshot and leaves the
transcription promise in flight, and without a context it sets a fatal
error.  The net effect of each path is one record update. -/
def handleTakeSnapshot (env : VideoEnv) (s : Session) : Session :=
  if env.ready = false then
    { s with error := some notReadyMsg, status := .Error }
  else
    match s.cropArea with
    | none => { s with error := some noCropMsg }
    | some r =>
      let src := sourceRegion env r
      if src.width < 1 ∨ src.height < 1 then
        { s with status := .Streaming, error := none }
      else if env.ctxOk then
        { s with
          status := .Transcribing
          error := none
          lastScreenshot := some env.shot
          pending := s.pending + 1 }
      else { s with error := some noCtxMsg, status := .Error }

/-- Continuation of `handleTakeSnapshot` when the transcription promise
fulfills with response text `text`: store the transcribed snippet and enter
review.  The source runs this whatever the status is at resolution time. -/
def handleTranscribeOk (text : Option String) (s : Session) : Session :=
  { s with
    pending := s.pending - 1
    currentSnippet := transcribeImage text
    status := .Reviewing }

/-- Continuation of `handleTakeSnapshot` when the transcription promise
rejects: surface the error and go back to `Streaming`, keeping the session
alive.  The source runs this whatever the status is at resolution time. -/
def handleTranscribeFail (s : Session) : Session :=
  { s with
    pending := s.pending - 1
    error := some transcribeFailMsg
    status := .Streaming }

/-- `handleSaveAndContinue`: append the current snippet to the accumulated
transcription (with a blank-line separator when the transcription is already
non-empty), clear the snippet and the screenshot preview, and resume
streaming.  The source does not touch `error` here. -/
def handleSaveAndContinue (s : Session) : Session :=
  { s with
    transcription :=
      if s.transcription = "" then s.currentSnippet
      else s.transcription ++ "\n\n" ++ s.currentSnippet
    currentSnippet := ""
    lastScreenshot := none
    status := .Streaming }

/-- `handleDiscardSnippet`: drop the snippet and the screenshot preview and
resume streaming; the accumulated transcription is not touched. -/
def handleDiscardSnippet (s : Session) : Session :=
  { s with currentSnippet := "", lastScreenshot := none, status := .Streaming }

/-- `handleMouseDown` at preview point `(x, y)`: clear any previous error,
begin selecting and start a fresh zero-size crop rectangle. -/
def handleMouseDown (x y : ℚ) (s : Session) : Session :=
  { s with
    error := none
    isSelecting := true
    selectionStart := some (x, y)
    cropArea := some ⟨x, y, 0, 0⟩ }

/-- `handleMouseMove` at preview point `(x, y)`: while selecting, replace the
crop rectangle by the axis-aligned rectangle spanned by the selection start
point and the current point. -/
def handleMouseMove (x y : ℚ) (s : Session) : Session :=
  if s.isSelecting then
    match s.selectionStart with
    | some p =>
      { s with cropArea := some ⟨min p.1 x, min p.2 y, |x - p.1|, |y - p.2|⟩ }
    | none => s
  else s

/-- `handleMouseUp`: stop selecting, and discard the crop rectangle when its
width or height is below the 10-pixel usability threshold. -/
def handleMouseUp (s : Session) : Session :=
  let s1 := { s with isSelecting := false }
  match s.cropArea with
  | some r =>
    if r.width < 10 ∨ r.height < 10 then { s1 with cropArea := none } else s1
  | none => s1

/-- `handleMouseLeave`: finish the gesture as a mouse-up when selecting. -/
def handleMouseLeave (s : Session) : Session :=
  if s.isSelecting then handleMouseUp s else s

/-- Entering the `Success`-state editing mode: set the flag and seed the
draft with the current transcription. -/
def beginEdit (s : Session) : Session :=
  { s with isEditing := true, editedTranscription := s.transcription }

/-- Saving the edited draft: write it back and leave editing mode. -/
def commitEdit (s : Session) : Session :=
  { s with transcription := s.editedTranscription, isEditing := false }

/-- Cancelling the edit: leave editing mode, discarding only the draft. -/
def cancelEdit (s : Session) : Session :=
  { s with isEditing := false }

/-- `isSessionActive`: status is `Streaming`, `Transcribing` or
`Reviewing`. -/
def sessionActive (s : Session) : Bool :=
  s.status = .Streaming ∨ s.status = .Transcribing ∨ s.status = .Reviewing

/-- The events the environment can deliver: one per handler invocation the
rendered UI or the installed callbacks can produce. -/
inductive Event
  | startCapture
  | acquireOk
  | acquireFail (name : String)
  | videoError
  | externalEnded
  | endSessionClick
  | takeSnapshot (env : VideoEnv)
  | transcribeOk (text : Option String)
  | transcribeFail
  | saveAndContinue
  | discardSnippet
  | editSnippet (t : String)
  | mouseDown (x y : ℚ)
  | mouseMove (x y : ℚ)
  | mouseUp
  | mouseLeave
  | startNewSession
  | beginEditing
  | editDraft (t : String)
  | cancelEditing
  | commitEditing

/-- One step of the event loop: `some` of the successor state when the event
is enabled (its trigger is rendered / installed / in flight), `none`
otherwise.  Guards follow the render tree of `App`: the capture button only
in `Idle`; acquisition results resume the pending `handleStartCapture`; the
video callbacks only while the stream is bound; End Session and Take
Snapshot only in the non-reviewing non-editing session branch, the latter
not while `Transcribing` and not without a crop area (`disabled`); promise
resolutions whenever a request is pending; review actions only in
`Reviewing`; mouse handlers whenever `isSessionActive`; reset buttons in
`Error` and `Success`; the edit controls in `Success`-side rendering. -/
def step : Event → Session → Option Session
  | .startCapture, s =>
    if s.status = .Idle then some (handleStartCapture s) else none
  | .acquireOk, s =>
    if s.status = .Capturing then some (handleAcquireOk s) else none
  | .acquireFail name, s =>
    if s.status = .Capturing then some (handleAcquireFail name s) else none
  | .videoError, s =>
    if s.streamActive = true ∧ sessionActive s = true then
      some (handleVideoError s)
    else none
  | .externalEnded, s =>
    match s.endedCapture with
    | some (tr, shot) =>
      if s.streamActive = true then some (endSessionCore tr shot s) else none
    | none => none
  | .endSessionClick, s =>
    if (s.status = .Streaming ∨ s.status = .Transcribing) ∧
        s.isEditing = false then
      some (handleEndSession s)
    else none
  | .takeSnapshot env, s =>
    if s.status = .Streaming ∧ s.cropArea.isSome ∧ s.isEditing = false then
      some (handleTakeSnapshot env s)
    else none
  | .transcribeOk text, s =>
    if 0 < s.pending then some (handleTranscribeOk text s) else none
  | .transcribeFail, s =>
    if 0 < s.pending then some (handleTranscribeFail s) else none
  | .saveAndContinue, s =>
    if s.status = .Reviewing then some (handleSaveAndContinue s) else none
  | .discardSnippet, s =>
    if s.status = .Reviewing then some (handleDiscardSnippet s) else none
  | .editSnippet t, s =>
    if s.status = .Reviewing then some { s with currentSnippet := t } else none
  | .mouseDown x y, s =>
    if sessionActive s = true then some (handleMouseDown x y s) else none
  | .mouseMove x y, s =>
    if sessionActive s = true then some (handleMouseMove x y s) else none
  | .mouseUp, s =>
    if sessionActive s = true then some (handleMouseUp s) else none
  | .mouseLeave, s =>
    if sessionActive s = true then some (handleMouseLeave s) else none
  | .startNewSession, s =>
    if s.status = .Error ∨ s.status = .Success then
      some (handleStartNewSession s)
    else none
  | .beginEditing, s =>
    if s.status = .Success ∧ s.transcription ≠ "" ∧ s.isEditing = false then
      some (beginEdit s)
    else none
  | .editDraft t, s =>
    if s.status ≠ .Reviewing ∧ s.isEditing = true then
      some { s with editedTranscription := t }
    else none
  | .cancelEditing, s =>
    if s.status ≠ .Reviewing ∧ s.isEditing = true then some (cancelEdit s)
    else none
  | .commitEditing, s =>
    if s.status ≠ .Reviewing ∧ s.isEditing = true then some (commitEdit s)
    else none

/-- The initial component state of `App`. -/
def initialSession : Session :=
  { status := .Idle
    transcription := ""
    currentSnippet := ""
    lastScreenshot := none
    error := none
    cropArea := none
    isCopied := false
    isEditing := false
    editedTranscription := ""
    isSelecting := false
    selectionStart := none
    streamActive := false
    endedCapture := none
    pending := 0 }

/-- A benign capture environment: video ready, native and displayed size
equal (scale 1), canvas context available. -/
def simpleEnv : VideoEnv := ⟨true, 1, 1, 1, 1, true, "shot"⟩

/-- The straight-line interaction start capture → stream acquired → drag a
50×50 rectangle → snapshot → transcription fulfills with text `"T"`; it ends
in `Reviewing`. -/
def captureReviewTrace : List Event :=
  [.startCapture, .acquireOk, .mouseDown 0 0, .mouseMove 50 50, .mouseUp,
    .takeSnapshot simpleEnv, .transcribeOk (some "T")]

/-- The state `captureReviewTrace` ends in. -/
def reviewState : Session :=
  { status := .Reviewing
    transcription := ""
    currentSnippet := "T"
    lastScreenshot := some "shot"
    error := none
    cropArea := some ⟨0, 0, 50, 50⟩
    isCopied := false
    isEditing := false
    editedTranscription := ""
    isSelecting := false
    selectionStart := some (0, 0)
    streamActive := true
    endedCapture := some ("", none)
    pending := 0 }

/-- `reviewState` after the video element fires `onerror`. -/
def reviewErrorState : Session :=
  { reviewState with status := .Error, error := some videoErrorMsg }

/-- The same interaction but with snippet text `"A"`, ending with Save &
Continue: it ends in `Streaming` with accumulated transcription `"A"` and the
stream still running. -/
def savedTrace : List Event :=
  [.startCapture, .acquireOk, .mouseDown 0 0, .mouseMove 50 50, .mouseUp,
    .takeSnapshot simpleEnv, .transcribeOk (some "A"), .saveAndContinue]

/-- The interaction in which the video stream errors while the transcription
call is still in flight, the call then fulfills, and the user saves the
reviewed snippet. -/
def staleErrorTrace : List Event :=
  [.startCapture, .acquireOk, .mouseDown 0 0, .mouseMove 50 50, .mouseUp,
    .takeSnapshot simpleEnv, .videoError, .transcribeOk (some "T"),
    .saveAndContinue]

/-- The state `savedTrace` ends in. -/
def savedState : Session :=
  { reviewState with
    status := .Streaming
    transcription := "A"
    currentSnippet := ""
    lastScreenshot := none }

/-- A session state is reachable when some sequence of enabled events leads
to it from the initial state. -/
inductive Reachable : Session → Prop
  | init : Reachable initialSession
  | next {s s1 : Session} (e : Event) :
      Reachable s → step e s = some s1 → Reachable s1

/-- Run a list of events from a state; `none` as soon as one is disabled. -/
def runEvents : List Event → Session → Option Session
  | [], s => some s
  | e :: es, s =>
    match step e s with
    | some s1 => runEvents es s1
    | none => none

theorem reachable_runEvents :
    ∀ (es : List Event) (s s1 : Session),
      Reachable s → runEvents es s = some s1 → Reachable s1 := by
  intro es
  induction es with
  | nil =>
    intro s s1 hs h
    simp only [runEvents, Option.some.injEq] at h
    exact h ▸ hs
  | cons e es ih =>
    intro s s1 hs h
    simp only [runEvents] at h
    cases hstep : step e s with
    | none => rw [hstep] at h; exact absurd h (by simp)
    | some s2 =>
      rw [hstep] at h
      exact ih s2 s1 (Reachable.next e hs hstep) h

/-- Combined inductive invariant about the snippet and the crop area: while
the status is `Idle` or `Capturing`, the current snippet is empty and no crop
area is set. -/
def SnippetCropInv (s : Session) : Prop :=
  (s.status = .Idle ∨ s.status = .Capturing) →
    s.currentSnippet = "" ∧ s.cropArea = none

theorem step_snippetCropInv (e : Event) (s s1 : Session)
    (h : step e s = some s1) (ih : SnippetCropInv s) : SnippetCropInv s1 := by
  cases e with
  | startCapture =>
    simp only [step] at h
    split at h
    · rename_i hg
      injection h with h2
      subst h2
      intro _
      exact ⟨(ih (Or.inl hg)).1, rfl⟩
    · exact absurd h (by simp)
  | acquireOk =>
    simp only [step] at h
    split at h
    · injection h with h2
      subst h2
      intro hc
      rcases hc with hc | hc <;> exact nomatch hc
    · exact absurd h (by simp)
  | acquireFail name =>
    simp only [step] at h
    split at h
    · injection h with h2
      subst h2
      simp only [handleAcquireFail]
      split
      · intro _
        exact ⟨rfl, rfl⟩
      · intro hc
        rcases hc with hc | hc <;> exact nomatch hc
    · exact absurd h (by simp)
  | videoError =>
    simp only [step] at h
    split at h
    · injection h with h2
      subst h2
      intro hc
      rcases hc with hc | hc <;> exact nomatch hc
    · exact absurd h (by simp)
  | externalEnded =>
    simp only [step] at h
    split at h
    · rename_i tr shot heq
      split at h
      · injection h with h2
        subst h2
        simp only [endSessionCore]
        split
        · intro hc
          rcases hc with hc | hc <;> exact nomatch hc
        · intro _
          exact ⟨rfl, rfl⟩
      · exact absurd h (by simp)
    · exact absurd h (by simp)
  | endSessionClick =>
    simp only [step] at h
    split at h
    · injection h with h2
      subst h2
      simp only [handleEndSession, endSessionCore]
      split
      · intro hc
        rcases hc with hc | hc <;> exact nomatch hc
      · intro _
        exact ⟨rfl, rfl⟩
    · exact absurd h (by simp)
  | takeSnapshot env =>
    simp only [step] at h
    split at h
    · rename_i hg
      injection h with h2
      subst h2
      simp only [handleTakeSnapshot]
      split
      · intro hc
        rcases hc with hc | hc <;> exact nomatch hc
      · split
        · intro hc
          rcases hc with hc | hc <;>
            exact absurd (hg.1.symm.trans hc) (by decide)
        · split
          · intro hc
            rcases hc with hc | hc <;> exact nomatch hc
          · split
            · intro hc
              rcases hc with hc | hc <;> exact nomatch hc
            · intro hc
              rcases hc with hc | hc <;> exact nomatch hc
    · exact absurd h (by simp)
  | transcribeOk text =>
    simp only [step] at h
    split at h
    · injection h with h2
      subst h2
      intro hc
      rcases hc with hc | hc <;> exact nomatch hc
    · exact absurd h (by simp)
  | transcribeFail =>
    simp only [step] at h
    split at h
    · injection h with h2
      subst h2
      intro hc
      rcases hc with hc | hc <;> exact nomatch hc
    · exact absurd h (by simp)
  | saveAndContinue =>
    simp only [step] at h
    split at h
    · injection h with h2
      subst h2
      intro hc
      rcases hc with hc | hc <;> exact nomatch hc
    · exact absurd h (by simp)
  | discardSnippet =>
    simp only [step] at h
    split at h
    · injection h with h2
      subst h2
      intro hc
      rcases hc with hc | hc <;> exact nomatch hc
    · exact absurd h (by simp)
  | editSnippet t =>
    simp only [step] at h
    split at h
    · rename_i hg
      injection h with h2
      subst h2
      intro hc
      rcases hc with hc | hc <;> exact absurd (hg.symm.trans hc) (by decide)
    · exact absurd h (by simp)
  | mouseDown x y =>
    simp only [step] at h
    split at h
    · rename_i hg
      simp only [sessionActive, decide_eq_true_eq] at hg
      injection h with h2
      subst h2
      intro hc
      rcases hc with hc | hc <;>
        rcases hg with hg | hg | hg <;>
          exact absurd (hg.symm.trans hc) (by decide)
    · exact absurd h (by simp)
  | mouseMove x y =>
    simp only [step] at h
    split at h
    · rename_i hg
      simp only [sessionActive, decide_eq_true_eq] at hg
      injection h with h2
      subst h2
      simp only [handleMouseMove]
      split
      · split
        · intro hc
          rcases hc with hc | hc <;>
            rcases hg with hg | hg | hg <;>
              exact absurd (hg.symm.trans hc) (by decide)
        · exact ih
      · exact ih
    · exact absurd h (by simp)
  | mouseUp =>
    simp only [step] at h
    split at h
    · rename_i hg
      simp only [sessionActive, decide_eq_true_eq] at hg
      injection h with h2
      subst h2
      simp only [handleMouseUp]
      split
      · split
        · intro hc
          rcases hc with hc | hc <;>
            rcases hg with hg | hg | hg <;>
              exact absurd (hg.symm.trans hc) (by decide)
        · intro hc
          rcases hc with hc | hc <;>
            rcases hg with hg | hg | hg <;>
              exact absurd (hg.symm.trans hc) (by decide)
      · intro hc
        rcases hc with hc | hc <;>
          rcases hg with hg | hg | hg <;>
            exact absurd (hg.symm.trans hc) (by decide)
    · exact absurd h (by simp)
  | mouseLeave =>
    simp only [step] at h
    split at h
    · rename_i hg
      simp only [sessionActive, decide_eq_true_eq] at hg
      injection h with h2
      subst h2
      simp only [handleMouseLeave, handleMouseUp]
      split
      · split
        · split
          · intro hc
            rcases hc with hc | hc <;>
              rcases hg with hg | hg | hg <;>
                exact absurd (hg.symm.trans hc) (by decide)
          · intro hc
            rcases hc with hc | hc <;>
              rcases hg with hg | hg | hg <;>
                exact absurd (hg.symm.trans hc) (by decide)
        · intro hc
          rcases hc with hc | hc <;>
            rcases hg with hg | hg | hg <;>
              exact absurd (hg.symm.trans hc) (by decide)
      · exact ih
    · exact absurd h (by simp)
  | startNewSession =>
    simp only [step] at h
    split at h
    · injection h with h2
      subst h2
      intro _
      exact ⟨rfl, rfl⟩
    · exact absurd h (by simp)
  | beginEditing =>
    simp only [step] at h
    split at h
    · rename_i hg
      injection h with h2
      subst h2
      intro hc
      rcases hc with hc | hc <;> exact absurd (hg.1.symm.trans hc) (by decide)
    · exact absurd h (by simp)
  | editDraft t =>
    simp only [step] at h
    split at h
    · injection h with h2
      subst h2
      intro hc
      exact ih hc
    · exact absurd h (by simp)
  | cancelEditing =>
    simp only [step] at h
    split at h
    · injection h with h2
      subst h2
      intro hc
      exact ih hc
    · exact absurd h (by simp)
  | commitEditing =>
    simp only [step] at h
    split at h
    · injection h with h2
      subst h2
      intro hc
      exact ih hc
    · exact absurd h (by simp)

theorem reachable_snippetCropInv (s : Session) (h : Reachable s) :
    SnippetCropInv s := by
  induction h with
  | init => exact fun _ => ⟨rfl, rfl⟩
  | next e hr hstep ih => exact step_snippetCropInv _ _ _ hstep ih

theorem transcribeImage_T : transcribeImage (some "T") = "T" := by decide

theorem runEvents_captureReviewTrace :
    runEvents captureReviewTrace initialSession = some reviewState := by
  simp only [captureReviewTrace, runEvents, step, initialSession,
    handleStartCapture, handleAcquireOk, handleMouseDown, handleMouseMove,
    handleMouseUp, handleTakeSnapshot, handleTranscribeOk, sessionActive,
    sourceRegion, simpleEnv, reviewState, transcribeImage_T]
  norm_num

theorem reachable_reviewState : Reachable reviewState :=
  reachable_runEvents captureReviewTrace initialSession reviewState
    Reachable.init runEvents_captureReviewTrace

/-- C1 counterexample: the interaction capture → drag → snapshot →
transcription fulfills with `"T"` → the video element fires `onerror`
reaches a state whose `currentSnippet` is the non-empty `"T"` while the
status is `Error`, not `Reviewing`: the stated invariant fails on the code
(the `onerror` handler sets only `error` and `status`, and never clears the
snippet). -/
theorem c1_snippet_only_reviewing_counterexample :
    Reachable reviewErrorState ∧ reviewErrorState.currentSnippet = "T" ∧
      reviewErrorState.status = .Error :=
  ⟨Reachable.next .videoError reachable_reviewState rfl, rfl, rfl⟩

/-- C1 (amended): in every reachable session state, a non-empty
`currentSnippet` implies the status is neither `Idle` nor `Capturing` (every
path into those phases fully resets the snippet); the snippet is not confined
to `Reviewing`, since video-stream errors and late promise resolutions can
carry it into `Error`, `Streaming`, `Transcribing` or `Success`. -/
theorem c1_snippet_not_idle_capturing (s : Session) (h : Reachable s)
    (hn : s.currentSnippet ≠ "") :
    s.status ≠ .Idle ∧ s.status ≠ .Capturing := by
  refine ⟨fun hs => ?_, fun hs => ?_⟩
  · exact hn (reachable_snippetCropInv s h (Or.inl hs)).1
  · exact hn (reachable_snippetCropInv s h (Or.inr hs)).1

theorem c1_snippet_not_idle_capturing_witness :
    reviewState.currentSnippet ≠ "" ∧
      (reviewState.status ≠ .Idle ∧ reviewState.status ≠ .Capturing) :=
  ⟨by simp [reviewState],
    c1_snippet_not_idle_capturing reviewState reachable_reviewState
      (by simp [reviewState])⟩

/-- C2 counterexample: the same interaction ends in `Reviewing` with
`cropArea` still set to the selected rectangle: the crop area survives the
take-snapshot event and the `Reviewing` phase, so it is not defined only
while the status is `Streaming` or `Transcribing`, and taking a capture does
not clear it. -/
theorem c2_cropArea_cleared_counterexample :
    Reachable reviewState ∧ reviewState.status = .Reviewing ∧
      reviewState.cropArea = some ⟨0, 0, 50, 50⟩ :=
  ⟨reachable_reviewState, rfl, rfl⟩

/-- C2 (amended): in every reachable session state, `cropArea` is `none`
whenever the status is `Idle` or `Capturing` (it is cleared by every full
reset and on starting a capture); but the take-snapshot, save-and-continue
and discard handlers leave `cropArea` exactly unchanged, so a defined crop
area persists into `Reviewing` (and into `Error`/`Success`). -/
theorem c2_cropArea_idle_capturing (s : Session) (h : Reachable s) :
    ((s.status = .Idle ∨ s.status = .Capturing) → s.cropArea = none) ∧
      (∀ env : VideoEnv, (handleTakeSnapshot env s).cropArea = s.cropArea) ∧
      (handleSaveAndContinue s).cropArea = s.cropArea ∧
      (handleDiscardSnippet s).cropArea = s.cropArea := by
  refine ⟨fun hs => (reachable_snippetCropInv s h hs).2, fun env => ?_, rfl,
    rfl⟩
  simp only [handleTakeSnapshot]
  split
  · rfl
  · split
    · rfl
    · split
      · rfl
      · split
        · rfl
        · rfl

theorem c2_cropArea_idle_capturing_witness :
    ((initialSession.status = .Idle ∨ initialSession.status = .Capturing) →
        initialSession.cropArea = none) ∧
      (∀ env : VideoEnv,
        (handleTakeSnapshot env initialSession).cropArea =
          initialSession.cropArea) ∧
      (handleSaveAndContinue initialSession).cropArea =
        initialSession.cropArea ∧
      (handleDiscardSnippet initialSession).cropArea =
        initialSession.cropArea :=
  c2_cropArea_idle_capturing initialSession Reachable.init

theorem runEvents_append (es fs : List Event) :
    ∀ s : Session,
      runEvents (es ++ fs) s = (runEvents es s).bind (runEvents fs) := by
  induction es with
  | nil => intro s; rfl
  | cons e es ih =>
    intro s
    simp only [List.cons_append, runEvents]
    cases step e s with
    | none => rfl
    | some s1 => exact ih s1

theorem transcribeImage_A : transcribeImage (some "A") = "A" := by decide

theorem runEvents_savedTrace :
    runEvents savedTrace initialSession = some savedState := by
  simp only [savedTrace, runEvents, step, initialSession, handleStartCapture,
    handleAcquireOk, handleMouseDown, handleMouseMove, handleMouseUp,
    handleTakeSnapshot, handleTranscribeOk, handleSaveAndContinue,
    sessionActive, sourceRegion, simpleEnv, savedState, reviewState,
    transcribeImage_A]
  norm_num

/-- C3: the session reached by saving one snippet `"A"` is `Streaming` with
a non-empty accumulated transcript and a live stream; yet when the stream
then ends externally (the browser Stop-sharing control), the installed
`onended` callback runs the stale `handleEndSession` closure captured at
acquisition time, whose `transcription`/`lastScreenshot` are `""`/`null` —
so the code performs a full reset to `Idle`, discarding the transcript,
instead of moving to `Success` as the claim (and the handler invoked with
current state) prescribes. -/
theorem c3_external_end_discards_transcript :
    ((runEvents savedTrace initialSession).map fun s =>
      (s.transcription, s.status, s.streamActive)) =
        some ("A", .Streaming, true) ∧
      ((runEvents (savedTrace ++ [.externalEnded]) initialSession).map
        fun s => (s.transcription, s.status, s.streamActive)) =
          some ("", .Idle, false) := by
  constructor
  · rw [runEvents_savedTrace]; rfl
  · rw [runEvents_append, runEvents_savedTrace]; rfl

theorem runEvents_staleErrorTrace :
    ((runEvents staleErrorTrace initialSession).map fun s =>
      (s.status, s.error)) = some (.Streaming, some videoErrorMsg) := by
  simp only [staleErrorTrace, runEvents, step, initialSession,
    handleStartCapture, handleAcquireOk, handleMouseDown, handleMouseMove,
    handleMouseUp, handleTakeSnapshot, handleVideoError, handleTranscribeOk,
    handleSaveAndContinue, sessionActive, sourceRegion, simpleEnv,
    transcribeImage_T]
  norm_num

/-- C4 counterexample: a reachable save-and-continue event from `Reviewing`
after which `error` is still set (the video stream errored while the
transcription call was in flight; its resolution put the session back into
`Reviewing` with the error message still present, and
`handleSaveAndContinue` never calls `setError`), refuting the claim that
save-and-continue clears `error`. -/
theorem c4_save_clears_error_counterexample :
    ((runEvents staleErrorTrace initialSession).map fun s =>
      (s.status, s.error)) = some (.Streaming, some videoErrorMsg) ∧
      videoErrorMsg ≠ "" := by
  exact ⟨runEvents_staleErrorTrace, by decide⟩

/-- C4 (amended): every save-and-continue event from `Reviewing` appends
`currentSnippet` to `accumulatedTranscript` joined by a blank line (two
consecutive saves of `"A"` then `"B"` from an empty transcript yield exactly
`"A\n\nB"`), clears `currentSnippet` and `lastScreenshot`, and sets the
status to `Streaming`; `error` is left unchanged, not cleared. -/
theorem c4_save_appends_and_clears (s s1 : Session)
    (h : step .saveAndContinue s = some s1) :
    s1.transcription =
        (if s.transcription = "" then s.currentSnippet
          else s.transcription ++ "\n\n" ++ s.currentSnippet) ∧
      s1.currentSnippet = "" ∧ s1.lastScreenshot = none ∧
      s1.status = .Streaming ∧ s1.error = s.error ∧
      (handleSaveAndContinue
        { handleSaveAndContinue
            { s with transcription := "", currentSnippet := "A" } with
          currentSnippet := "B" }).transcription = "A\n\nB" := by
  simp only [step] at h
  split at h
  · injection h with h2
    subst h2
    refine ⟨rfl, rfl, rfl, rfl, rfl, ?_⟩
    simp only [handleSaveAndContinue]
    decide
  · exact absurd h (by simp)

theorem c4_save_appends_and_clears_witness :
    (handleSaveAndContinue
        { initialSession with
          status := .Reviewing
          currentSnippet := "hi"
          error := some "boom" }).error = some "boom" ∧
      (handleSaveAndContinue
        { initialSession with
          status := .Reviewing
          currentSnippet := "hi"
          error := some "boom" }).status = .Streaming := by
  have h := c4_save_appends_and_clears
    { initialSession with
      status := .Reviewing, currentSnippet := "hi", error := some "boom" }
    (handleSaveAndContinue
      { initialSession with
        status := .Reviewing, currentSnippet := "hi", error := some "boom" })
    rfl
  exact ⟨h.2.2.2.2.1, h.2.2.2.1⟩

/-- C5 counterexample: when the model returns the non-empty whitespace-only
text `" "`, the guard `if (!text)` does not fire (a non-empty string is
truthy), and `text.trim()` is returned — which is the empty string.  So
`transcribeImage` can resolve to `""` on success, refuting the claim that it
never resolves to an empty string. -/
theorem c5_nonempty_counterexample : transcribeImage (some " ") = "" := by
  decide

/-- C5 (amended): on success `transcribeImage` resolves to the placeholder
exactly when the model text is falsy (`undefined` or `""`), and otherwise to
the trimmed model text — which is empty precisely when the model returned
whitespace only; any underlying failure is rethrown as the single generic
service error, so no other error shape escapes this boundary. -/
theorem c5_transcribe_contract (t : String) (e : Unit) (r : Option String)
    (ht : t ≠ "") :
    transcribeImage none = noTextPlaceholder ∧
      transcribeImage (some "") = noTextPlaceholder ∧
      transcribeImage (some t) = jsTrim t ∧
      transcribeImageCall (.error e) = .error serviceErrorMsg ∧
      transcribeImageCall (.ok r) = .ok (transcribeImage r) := by
  refine ⟨rfl, rfl, ?_, rfl, rfl⟩
  simp [transcribeImage, ht]

theorem c5_transcribe_contract_witness :
    transcribeImage none = noTextPlaceholder ∧
      transcribeImage (some "") = noTextPlaceholder ∧
      transcribeImage (some "x") = jsTrim "x" ∧
      transcribeImageCall (.error ()) = .error serviceErrorMsg ∧
      transcribeImageCall (.ok (some "x")) =
        .ok (transcribeImage (some "x")) :=
  c5_transcribe_contract "x" () (some "x") (by decide)

/-- C6: for every acquisition failure delivered while `Capturing`, a user
denial or abort (error name `NotAllowedError` or `AbortError`) fully resets
the session to `Idle` with no error message, and every other failure sets the
human-readable capture-failure message and moves to `Error`. -/
theorem c6_acquire_failure (name : String) (s s1 : Session)
    (h : step (.acquireFail name) s = some s1) :
    ((name = "NotAllowedError" ∨ name = "AbortError") →
        s1.status = .Idle ∧ s1.error = none ∧ s1.transcription = "" ∧
          s1.currentSnippet = "" ∧ s1.lastScreenshot = none ∧
          s1.cropArea = none ∧ s1.streamActive = false) ∧
      (¬(name = "NotAllowedError" ∨ name = "AbortError") →
        s1.status = .Error ∧ s1.error = some captureFailMsg ∧
          captureFailMsg ≠ "") := by
  simp only [step] at h
  split at h
  · injection h with h2
    subst h2
    constructor
    · intro hn
      simp only [handleAcquireFail, if_pos hn]
      exact ⟨rfl, rfl, rfl, rfl, rfl, rfl, rfl⟩
    · intro hn
      simp only [handleAcquireFail, if_neg hn]
      exact ⟨trivial, trivial, by decide⟩
  · exact absurd h (by simp)

theorem c6_acquire_failure_witness :
    (("AbortError" : String) = "NotAllowedError" ∨
        ("AbortError" : String) = "AbortError") ∧
      (handleAcquireFail "AbortError"
          { initialSession with status := .Capturing }).status = .Idle ∧
      (handleAcquireFail "AbortError"
          { initialSession with status := .Capturing }).error = none := by
  have h := c6_acquire_failure "AbortError"
    { initialSession with status := .Capturing }
    (handleAcquireFail "AbortError"
      { initialSession with status := .Capturing }) rfl
  have hn : ("AbortError" : String) = "NotAllowedError" ∨
      ("AbortError" : String) = "AbortError" := Or.inr rfl
  exact ⟨hn, (h.1 hn).1, (h.1 hn).2.1⟩

/-- C7: when the transcription promise rejects while the session is in
`Transcribing`, the status returns to `Streaming`, `error` is set to the
non-empty transcription-failure message, and the accumulated transcript and
the stream resource are left unchanged (the session stays alive). -/
theorem c7_transcription_failure (s s1 : Session)
    (_hst : s.status = .Transcribing)
    (h : step .transcribeFail s = some s1) :
    s1.status = .Streaming ∧ s1.error = some transcribeFailMsg ∧
      transcribeFailMsg ≠ "" ∧ s1.transcription = s.transcription ∧
      s1.streamActive = s.streamActive := by
  simp only [step] at h
  split at h
  · injection h with h2
    subst h2
    exact ⟨rfl, rfl, by decide, rfl, rfl⟩
  · exact absurd h (by simp)

theorem c7_transcription_failure_witness :
    ({ initialSession with
        status := .Transcribing, pending := 1 } : Session).status =
        .Transcribing ∧
      (handleTranscribeFail
        { initialSession with
          status := .Transcribing, pending := 1 }).status = .Streaming ∧
      (handleTranscribeFail
        { initialSession with
          status := .Transcribing, pending := 1 }).error =
        some transcribeFailMsg := by
  have h := c7_transcription_failure
    { initialSession with status := .Transcribing, pending := 1 }
    (handleTranscribeFail
      { initialSession with status := .Transcribing, pending := 1 })
    rfl rfl
  exact ⟨rfl, h.1, h.2.1⟩

/-- C8: the extracted source region scales the preview-coordinate rectangle
by `(videoWidth / clientWidth, videoHeight / clientHeight)` componentwise;
the rectangle `(10, 10, 100, 80)` at a 2:1 native:display scale yields
`(20, 20, 200, 160)`; and when the scaled width or height falls below one
pixel, a take-snapshot from `Streaming` is rejected: the state is unchanged
except that `error` is cleared, so the session stays in `Streaming`, stores
no screenshot, and starts no transcription. -/
theorem c8_region_extraction (env : VideoEnv) (r : Rect) (s : Session)
    (hs : s.status = .Streaming) (hc : s.cropArea = some r)
    (hr : env.ready = true)
    (hlow : (sourceRegion env r).width < 1 ∨
      (sourceRegion env r).height < 1) :
    sourceRegion env r =
        ⟨r.x * (env.videoWidth / env.clientWidth),
          r.y * (env.videoHeight / env.clientHeight),
          r.width * (env.videoWidth / env.clientWidth),
          r.height * (env.videoHeight / env.clientHeight)⟩ ∧
      sourceRegion ⟨true, 200, 160, 100, 80, true, ""⟩ ⟨10, 10, 100, 80⟩ =
        ⟨20, 20, 200, 160⟩ ∧
      handleTakeSnapshot env s = { s with error := none } ∧
      (handleTakeSnapshot env s).status = .Streaming ∧
      (handleTakeSnapshot env s).lastScreenshot = s.lastScreenshot ∧
      (handleTakeSnapshot env s).pending = s.pending := by
  have hmain : handleTakeSnapshot env s = { s with error := none } := by
    simp only [handleTakeSnapshot, hr, hc]
    norm_num
    rw [if_pos hlow, ← hs]
  refine ⟨rfl, ?_, hmain, ?_, ?_, ?_⟩
  · simp only [sourceRegion]
    norm_num
  · rw [hmain, hs]
  · rw [hmain]
  · rw [hmain]

theorem c8_region_extraction_witness :
    sourceRegion ⟨true, 1, 1, 1, 1, true, ""⟩ ⟨0, 0, 0, 0⟩ =
        ⟨0 * ((1 : ℚ) / 1), 0 * ((1 : ℚ) / 1), 0 * ((1 : ℚ) / 1),
          0 * ((1 : ℚ) / 1)⟩ ∧
      sourceRegion ⟨true, 200, 160, 100, 80, true, ""⟩ ⟨10, 10, 100, 80⟩ =
        ⟨20, 20, 200, 160⟩ ∧
      (handleTakeSnapshot ⟨true, 1, 1, 1, 1, true, ""⟩
        { initialSession with
          status := .Streaming, cropArea := some ⟨0, 0, 0, 0⟩ }).status =
        .Streaming := by
  have h := c8_region_extraction ⟨true, 1, 1, 1, 1, true, ""⟩ ⟨0, 0, 0, 0⟩
    { initialSession with
      status := .Streaming, cropArea := some ⟨0, 0, 0, 0⟩ }
    rfl rfl rfl (Or.inl (by simp [sourceRegion]))
  exact ⟨h.1, h.2.1, h.2.2.2.1⟩

/-- C9: every discard event from `Reviewing` leaves the accumulated
transcript exactly unchanged, clears the current snippet and the last
screenshot, and returns the status to `Streaming`. -/
theorem c9_discard (s s1 : Session)
    (h : step .discardSnippet s = some s1) :
    s1.transcription = s.transcription ∧ s1.currentSnippet = "" ∧
      s1.lastScreenshot = none ∧ s1.status = .Streaming := by
  simp only [step] at h
  split at h
  · injection h with h2
    subst h2
    exact ⟨rfl, rfl, rfl, rfl⟩
  · exact absurd h (by simp)

theorem c9_discard_witness :
    (handleDiscardSnippet
        { initialSession with
          status := .Reviewing
          transcription := "keep"
          currentSnippet := "drop"
          lastScreenshot := some "img" }).transcription =
        ({ initialSession with
          status := .Reviewing
          transcription := "keep"
          currentSnippet := "drop"
          lastScreenshot := some "img" } : Session).transcription ∧
      (handleDiscardSnippet
        { initialSession with
          status := .Reviewing
          transcription := "keep"
          currentSnippet := "drop"
          lastScreenshot := some "img" }).currentSnippet = "" ∧
      (handleDiscardSnippet
        { initialSession with
          status := .Reviewing
          transcription := "keep"
          currentSnippet := "drop"
          lastScreenshot := some "img" }).lastScreenshot = none ∧
      (handleDiscardSnippet
        { initialSession with
          status := .Reviewing
          transcription := "keep"
          currentSnippet := "drop"
          lastScreenshot := some "img" }).status = .Streaming :=
  c9_discard
    { initialSession with
      status := .Reviewing
      transcription := "keep"
      currentSnippet := "drop"
      lastScreenshot := some "img" }
    (handleDiscardSnippet
      { initialSession with
        status := .Reviewing
        transcription := "keep"
        currentSnippet := "drop"
        lastScreenshot := some "img" })
    rfl

/-- C10: invoking take-snapshot while the video element is absent or its
`readyState` is below 2 sets the fatal `Error` status with the message
"Video stream is not ready." — in contrast with the no-crop-area case, which
only surfaces a local message and leaves the status unchanged. -/
theorem c10_not_ready (s : Session) (env envR : VideoEnv)
    (hnr : env.ready = false) (hr : envR.ready = true)
    (hc : s.cropArea = none) :
    handleTakeSnapshot env s =
        { s with error := some notReadyMsg, status := .Error } ∧
      (handleTakeSnapshot env s).status = .Error ∧
      handleTakeSnapshot envR s = { s with error := some noCropMsg } ∧
      (handleTakeSnapshot envR s).status = s.status := by
  have h1 : handleTakeSnapshot env s =
      { s with error := some notReadyMsg, status := .Error } := by
    simp [handleTakeSnapshot, hnr]
  have h2 : handleTakeSnapshot envR s = { s with error := some noCropMsg } := by
    simp [handleTakeSnapshot, hr, hc]
  refine ⟨h1, by rw [h1], h2, by rw [h2]⟩

theorem c10_not_ready_witness :
    handleTakeSnapshot ⟨false, 1, 1, 1, 1, true, ""⟩ initialSession =
        { initialSession with
          error := some notReadyMsg, status := .Error } ∧
      (handleTakeSnapshot ⟨false, 1, 1, 1, 1, true, ""⟩
        initialSession).status = .Error ∧
      handleTakeSnapshot ⟨true, 1, 1, 1, 1, true, ""⟩ initialSession =
        { initialSession with error := some noCropMsg } ∧
      (handleTakeSnapshot ⟨true, 1, 1, 1, 1, true, ""⟩
        initialSession).status = initialSession.status :=
  c10_not_ready initialSession ⟨false, 1, 1, 1, 1, true, ""⟩
    ⟨true, 1, 1, 1, 1, true, ""⟩ rfl rfl rfl

end ScreenScribe
